import Mathlib

/-!
Verification of the PropertyTest repository's building-selection,
floor-generation and dataset-styling logic.

The JavaScript sources (`src/js/BuildingSelector.js`, `src/js/FloorGenerator.js`,
`src/js/PropertyDataService.js`, `src/js/BuildingDataLoader.js`,
`src/js/TileStyleManager.js`) are shallowly embedded below: pure functions
become Lean functions over executable data, stateful classes become explicit
state-passing functions, machine reals become rationals, and fallible or
asynchronous operations become `Option`/`Except` values plus an explicit
event-step relation for the promise interleavings of the click handler.
-/

/-! ## JavaScript value and string helpers -/

/-- A JavaScript property value as observed by the feature-identification
code: the code only distinguishes strings (`typeof value === 'string'`)
from everything else, and converts non-strings with `String(value)`. -/
inductive JsValue where
  | str (s : String)
  | num (n : Int)
  deriving DecidableEq, Repr

/-- Model of the JavaScript `String(value)` coercion for the values above. -/
def JsValue.toStr : JsValue → String
  | .str s => s
  | .num n => toString n

/-- Test for the regex `/^[0-9]{16}$/`: exactly sixteen ASCII digits. The
character list of the string is traversed directly (it is the same
computation as `String.all`, in a form the kernel can evaluate). -/
def is16Digits (s : String) : Bool :=
  s.length = 16 && s.data.all Char.isDigit

/-- Model of JavaScript `s.toLowerCase()` for the ASCII names involved. -/
def jsToLower (s : String) : String :=
  (s.data.map Char.toLower).asString

/-- Model of JavaScript `s.trim()`: strip leading and trailing whitespace. -/
def jsTrim (s : String) : String :=
  (((s.data.dropWhile Char.isWhitespace).reverse.dropWhile
      Char.isWhitespace).reverse).asString

/-- Leftmost match of the regex `/[0-9]{16}/` on a character list: the first
position at which sixteen consecutive digits start, returning those sixteen
digits. -/
def embedded16Chars : List Char → Option (List Char)
  | [] => none
  | c :: rest =>
    let here := (c :: rest).take 16
    if here.length = 16 && here.all Char.isDigit then
      some here
    else
      embedded16Chars rest

/-- Leftmost embedded sixteen-digit substring of a string (the
`String(x).match(/[0-9]{16}/)` idiom used throughout the sources). -/
def embedded16 (s : String) : Option String :=
  (embedded16Chars s.toList).map List.asString

/-- Substring containment on character lists, used for the batch-table
`name.toLowerCase().includes('id')` test. -/
def charsContain (pat : List Char) : List Char → Bool
  | [] => pat.isEmpty
  | c :: rest => pat.isPrefixOf (c :: rest) || charsContain pat rest

/-- Model of JavaScript `haystack.includes(needle)`. -/
def strIncludes (haystack needle : String) : Bool :=
  charsContain needle.toList haystack.toList

/-! ## TileFeature and the feature identifier (BuildingSelector.js) -/

/-- An opaque 3D-tile feature as the identification code consumes it:
a property table reachable through `hasProperty`/`getProperty`, and an
optional batch table (`feature._content.batchTable` or
`feature.content.batchTable`) whose rows for this feature's batch id are
again name/value pairs. -/
structure TileFeature where
  props : List (String × JsValue)
  batch : Option (List (String × JsValue))
  deriving DecidableEq, Repr

namespace TileFeature

/-- Model of `feature.getProperty(name)`. -/
def getProperty (f : TileFeature) (name : String) : Option JsValue :=
  f.props.lookup name

/-- Model of `feature.hasProperty(name)`. -/
def hasProperty (f : TileFeature) (name : String) : Bool :=
  (f.getProperty name).isSome

end TileFeature

namespace BuildingSelector

/-- The fixed ordered candidate list of `getFeatureBuildingId`:
`['PANDID', 'pandid', 'id', 'ID', 'buildingId', 'gml:id']`. -/
def canonicalNames : List String :=
  ["PANDID", "pandid", "id", "ID", "buildingId", "gml:id"]

/-- The first loop of `getFeatureBuildingId`: walk the candidate names in
order; for a present property whose value is a string of exactly sixteen
digits, return it, otherwise keep walking. -/
def canonicalScan (f : TileFeature) : List String → Option String
  | [] => none
  | name :: rest =>
    match f.getProperty name with
    | some (.str s) => if is16Digits s then some s else canonicalScan f rest
    | some _ => canonicalScan f rest
    | none => canonicalScan f rest

/-- The `gml:id` fallback of `getFeatureBuildingId`: when the property is
present, `String(gmlId).match(/[0-9]{16}/)` extracts an embedded sixteen-digit
substring; on no match the code falls through. -/
def gmlIdScan (f : TileFeature) : Option String :=
  match f.getProperty "gml:id" with
  | some v => embedded16 v.toStr
  | none => none

/-- The batch-table walk of `extractBuildingIdFromFeature`: for each batch
property whose lowercased name contains `"id"`, test the value with the exact
sixteen-digit regex. -/
def batchRowScan : List (String × JsValue) → Option String
  | [] => none
  | (name, v) :: rest =>
    if strIncludes (jsToLower name) "id" then
      match v with
      | .str s => if is16Digits s then some s else batchRowScan rest
      | _ => batchRowScan rest
    else
      batchRowScan rest

/-- Model of `BuildingSelector.extractBuildingIdFromFeature`: scan the batch
table when one is reachable, else return null. -/
def extractBuildingIdFromFeature (f : TileFeature) : Option String :=
  match f.batch with
  | some rows => batchRowScan rows
  | none => none

/-- Model of `BuildingSelector.getFeatureBuildingId`, translated clause by
clause: the initial property dump of the source only logs and never returns,
so it does not appear; then the canonical-name loop, then the `gml:id`
extraction, then the batch-table search, then null. -/
def getFeatureBuildingId (f : TileFeature) : Option String :=
  match canonicalScan f canonicalNames with
  | some v => some v
  | none =>
    match gmlIdScan f with
    | some v => some v
    | none =>
      match extractBuildingIdFromFeature f with
      | some v => some v
      | none => none

/-- Modelled from the spec: the claimed fourth identification strategy,
"scan every available property value for any embedded 16-digit substring".
No such returning scan exists in `getFeatureBuildingId`; this definition
follows the spec's words so the claimed identifier can be compared with the
implemented one. -/
def specValueScan : List (String × JsValue) → Option String
  | [] => none
  | (_, v) :: rest =>
    match embedded16 v.toStr with
    | some s => some s
    | none => specValueScan rest

/-- Modelled from the spec: the four-strategy identifier the claim describes,
strategies tried in order with the first success winning. -/
def specFeatureIdentifier (f : TileFeature) : Option String :=
  match canonicalScan f canonicalNames with
  | some v => some v
  | none =>
    match gmlIdScan f with
    | some v => some v
    | none =>
      match extractBuildingIdFromFeature f with
      | some v => some v
      | none => specValueScan f.props

end BuildingSelector

/-! ## Property records and floor information (FloorGenerator.js) -/

/-- One WOZ unit row as the floor code consumes it. The four floor fields of
the `woz_objects` table are nullable integers; `none` models an absent
(`undefined`) field, which is what the explicit `!== undefined` guards of the
source test for. -/
structure PropertyRecord where
  pandid : String
  aant_bwlg_pnd : Option Int
  hoogste_bwlg_pnd : Option Int
  laagste_bwlg_pnd : Option Int
  bwlg_vb0 : Option Int
  deriving DecidableEq, Repr

namespace FloorGenerator

/-- The floor-count branch of `getDetailedFloorInfo`, the resolver that
`generateFloorModels` actually calls (line 70): start from the constant 9,
take `aant_bwlg_pnd` when truthy and positive, else
`hoogste_bwlg_pnd - laagste_bwlg_pnd + 1` when both fields are defined. -/
def detailedTotalFloors (first : PropertyRecord) : Int :=
  match first.aant_bwlg_pnd with
  | some a =>
    if a ≠ 0 ∧ a > 0 then a
    else
      match first.hoogste_bwlg_pnd, first.laagste_bwlg_pnd with
      | some h, some l => h - l + 1
      | _, _ => 9
  | none =>
    match first.hoogste_bwlg_pnd, first.laagste_bwlg_pnd with
    | some h, some l => h - l + 1
    | _, _ => 9

/-- Model of `getDetailedFloorInfo` restricted to the fields the floor
pipeline reads: null on an empty record list, otherwise the floor count
resolved from the first record. -/
def getDetailedFloorInfo (properties : List PropertyRecord) : Option Int :=
  match properties with
  | [] => none
  | first :: _ => some (detailedTotalFloors first)

/-- Count of distinct defined `bwlg_vb0` values over a record list, as the
`uniqueFloors` set of `getTotalFloors` computes it. -/
def uniqueFloorCount (properties : List PropertyRecord) : Nat :=
  ((properties.filterMap PropertyRecord.bwlg_vb0).dedup).length

/-- Model of `FloorGenerator.getTotalFloors` (lines 891-929): default 15 on an
empty list; else `aant_bwlg_pnd` when positive; else highest - lowest + 1 when
both defined; else the count of distinct observed floor indices when nonzero;
else 15. In the repository this function is only reachable from
`extractBuildingData`, which no code calls. -/
def getTotalFloors (properties : List PropertyRecord) : Int :=
  match properties with
  | [] => 15
  | first :: _ =>
    match first.aant_bwlg_pnd with
    | some a =>
      if a ≠ 0 ∧ a > 0 then a
      else getTotalFloorsFallback properties first
    | none => getTotalFloorsFallback properties first
where
  /-- The range and unique-count fallbacks shared by both match arms. -/
  getTotalFloorsFallback (properties : List PropertyRecord)
      (first : PropertyRecord) : Int :=
    match first.hoogste_bwlg_pnd, first.laagste_bwlg_pnd with
    | some h, some l => h - l + 1
    | _, _ =>
      if uniqueFloorCount properties > 0 then (uniqueFloorCount properties : Int)
      else 15

/-- Model of `getPropertiesOnFloor`: the records whose `bwlg_vb0` strictly
equals the floor number. -/
def getPropertiesOnFloor (properties : List PropertyRecord) (floorNum : Nat) :
    List PropertyRecord :=
  properties.filter (fun p => p.bwlg_vb0 = some (floorNum : Int))

/-! ## Floor colors (FloorGenerator.getFloorColor) -/

/-- A Cesium color as `getFloorColor` produces one: `Color.RED.withAlpha`,
`Color.BLUE.withAlpha`, or `Color.fromHsl(h, s, l, a)`. -/
inductive FloorColor where
  | redAlpha (a : ℚ)
  | blueAlpha (a : ℚ)
  | hsl (h s l a : ℚ)
  deriving DecidableEq, Repr

/-- Model of `FloorGenerator.getFloorColor` (lines 1236-1252): red for floor
0, blue for the top floor, otherwise
`fromHsl(0.6 - (floorNum / max(1, totalFloors-1)) * 0.6, 0.8, 0.6, 0.8)`. -/
def getFloorColor (floorNum totalFloors : Nat) : FloorColor :=
  if floorNum = 0 then .redAlpha (4/5)
  else if floorNum = totalFloors - 1 then .blueAlpha (4/5)
  else
    let normalizedHeight : ℚ := (floorNum : ℚ) / (max 1 (totalFloors - 1) : Nat)
    .hsl (3/5 - normalizedHeight * (3/5)) (4/5) (3/5) (4/5)

/-- Hue of the HSL representation of the fixed endpoint colors: pure red has
hue 0 and pure blue has hue 2/3 (240 degrees) in the standard RGB-to-HSL
conversion Cesium uses; an explicit `fromHsl` color carries its own hue. -/
def hueOf : FloorColor → ℚ
  | .redAlpha _ => 0
  | .blueAlpha _ => 2/3
  | .hsl h _ _ _ => h

/-! ## Floor entity generation (FloorGenerator.generateFloorModels) -/

/-- A cartographic world anchor (longitude, latitude, ellipsoidal height), the
coordinate form `generateFloorModels` reduces the building position to before
laying out floors. -/
structure Carto where
  lon : ℚ
  lat : ℚ
  height : ℚ
  deriving DecidableEq, Repr

/-- The geometry record `extractDetailedGeometry` hands to the floor layout
code, with the position already in cartographic form. -/
structure BuildingGeometry where
  position : Carto
  width : ℚ
  length : ℚ
  height : ℚ
  isLShaped : Bool
  deriving DecidableEq, Repr

/-- One generated floor entity: the fields of the `Cesium.Entity` literal of
`createFloorEntityFromGeometry` that the claims speak about, plus the `show`
flag toggled by visibility changes. -/
structure FloorEnt where
  buildingId : String
  floorNum : Nat
  lon : ℚ
  lat : ℚ
  z : ℚ
  dimX : ℚ
  dimY : ℚ
  dimZ : ℚ
  color : FloorColor
  records : List PropertyRecord
  visible : Bool
  deriving DecidableEq, Repr

/-- The floor-layout loop of `generateFloorModels` (lines 84-152) for the
regular (non-L-shaped) shape: with `bottom = anchor.height - h/2` and
`fh = h / totalFloors`, floor `i` sits at the anchor's longitude/latitude with
`z = bottom + i*fh + fh/2`, box dimensions `width*0.95 x length*0.95 x
fh*0.8`, the gradient color, and the records whose floor index equals `i`. -/
def generateFloorEntities (buildingId : String) (geom : BuildingGeometry)
    (properties : List PropertyRecord) (totalFloors : Nat) : List FloorEnt :=
  let h := geom.height
  let fh := h / (totalFloors : ℚ)
  let bottom := geom.position.height - h / 2
  (List.range totalFloors).map fun i =>
    { buildingId := buildingId
      floorNum := i
      lon := geom.position.lon
      lat := geom.position.lat
      z := bottom + (i : ℚ) * fh + fh / 2
      dimX := geom.width * (19/20)
      dimY := geom.length * (19/20)
      dimZ := fh * (4/5)
      color := getFloorColor i totalFloors
      records := getPropertiesOnFloor properties i
      visible := true }

end FloorGenerator

/-! ## Insertion-ordered maps (the JavaScript `Map` objects of the sources) -/

namespace JsMap

/-- Model of `Map.prototype.get` (undefined becomes `none`). -/
def get {α : Type} (m : List (String × α)) (k : String) : Option α :=
  m.lookup k

/-- Model of `Map.prototype.set`: replace in place when the key exists,
append otherwise. -/
def set {α : Type} : List (String × α) → String → α → List (String × α)
  | [], k, v => [(k, v)]
  | (k', v') :: rest, k, v =>
    if k' = k then (k, v) :: rest else (k', v') :: set rest k v

/-- Model of `Map.prototype.delete`. -/
def del {α : Type} (m : List (String × α)) (k : String) : List (String × α) :=
  m.filter (fun p => p.1 ≠ k)

/-- The key list of a map, in insertion order. -/
def keys {α : Type} (m : List (String × α)) : List String :=
  m.map Prod.fst

end JsMap

/-! ## FloorGenerator state and its mutating operations -/

namespace FloorGenerator

/-- The mutable state of a `FloorGenerator` instance: the
`Map<buildingId, Array<floorEntities>>`, the `activeBuilding` field, and the
`Map<buildingId, positionInfo>` written by `setBuildingPosition` (only the
position component of `positionInfo` is ever read back). -/
structure State where
  floorEntities : List (String × List FloorEnt)
  activeBuilding : Option String
  buildingPositions : List (String × Carto)
  deriving DecidableEq, Repr

/-- The state with no floors generated and no cached positions. -/
def State.initial : State :=
  { floorEntities := [], activeBuilding := none, buildingPositions := [] }

/-- Model of `setBuildingPosition`: an unconditional `Map.set`. -/
def setBuildingPosition (s : State) (buildingId : String) (pos : Carto) :
    State :=
  { s with buildingPositions := JsMap.set s.buildingPositions buildingId pos }

/-- Model of `getBuildingPosition`: `Map.get` with null for a miss. -/
def getBuildingPosition (s : State) (buildingId : String) : Option Carto :=
  JsMap.get s.buildingPositions buildingId

/-- Model of `removeFloorModels(buildingId)`: destroy and evict the given
building's floor entities only. -/
def removeFloorModels (s : State) (buildingId : String) : State :=
  { s with floorEntities := JsMap.del s.floorEntities buildingId }

/-- Model of `removeAllFloorModels`: destroy every tracked floor entity and
clear the map. -/
def removeAllFloorModels (s : State) : State :=
  { s with floorEntities := [] }

/-- Model of `setFloorsVisible(buildingId, visible)`: when the building has a
non-empty entity list, set each entity's `show` flag and touch nothing else;
otherwise log a warning and change nothing. -/
def setFloorsVisible (s : State) (buildingId : String) (visible : Bool) :
    State :=
  match JsMap.get s.floorEntities buildingId with
  | some ents =>
    if ents.length > 0 then
      { s with
        floorEntities := JsMap.set s.floorEntities buildingId
          (ents.map fun e => { e with visible := visible }) }
    else s
  | none => s

/-- Model of the state effect of `generateFloorModels` (lines 44-172) for a
run in which `extractBuildingId` returned `buildingId` and
`extractDetailedGeometry` returned `geom` (both are passed in as the results
of those extractions): resolve the floor count through `getDetailedFloorInfo`,
fail when it is null or non-positive, otherwise remove THIS building's
existing floors, lay out the new entities, store them under the building id
and mark the building active. The L-shaped special case changes only the
per-floor box composition, not the bookkeeping modelled here. -/
def generateFloorModels (s : State) (buildingId : String)
    (geom : BuildingGeometry) (properties : List PropertyRecord) :
    State × Bool :=
  match getDetailedFloorInfo properties with
  | none => (s, false)
  | some total =>
    if total ≤ 0 then (s, false)
    else
      let s1 := removeFloorModels s buildingId
      let ents := generateFloorEntities buildingId geom properties total.toNat
      ({ s1 with
          floorEntities := JsMap.set s1.floorEntities buildingId ents
          activeBuilding := some buildingId },
        true)

end FloorGenerator

/-! ## Selector-level floor flows (BuildingSelector.js) -/

namespace BuildingSelector

open FloorGenerator

/-- State effect of `BuildingSelector.generateFloors` on the floor generator
when generation succeeds: it calls `floorGenerator.generateFloorModels`
directly, with no prior `removeAllFloorModels`. This is the path the click
handler takes for a newly picked building when floor mode is on. -/
def generateFloorsOnPick (s : State) (buildingId : String)
    (geom : BuildingGeometry) (properties : List PropertyRecord) :
    State × Bool :=
  generateFloorModels s buildingId geom properties

/-- State effect of `toggleFloorModels(true)` on the floor generator for the
successful fetch path: `removeAllFloorModels` first, then (optionally) cache
the resolved position, then `generateFloorModels`. -/
def toggleFloorsOn (s : State) (buildingId : String)
    (earthPosition : Option Carto) (geom : BuildingGeometry)
    (properties : List PropertyRecord) : State × Bool :=
  let s1 := removeAllFloorModels s
  let s2 :=
    match earthPosition with
    | some p => setBuildingPosition s1 buildingId p
    | none => s1
  generateFloorModels s2 buildingId geom properties

/-- State effect of `toggleFloorModels(false)`: hide, not destroy. -/
def toggleFloorsOff (s : State) (buildingId : String) : State :=
  setFloorsVisible s buildingId false

/-- State effect of the empty-click branch of `onLeftClick`:
`removeAllFloorModels`. -/
def clickMissFloors (s : State) : State :=
  removeAllFloorModels s

end BuildingSelector

/-! ## Position resolution and the per-building position cache -/

namespace BuildingSelector

/-- The predefined positions of `getKnownBuildingPosition`, keyed by building
id (longitude, latitude, height in the source's decimal degrees, written as
exact rationals). -/
def knownBuildingsTable : List (String × FloorGenerator.Carto) :=
  [ ("0599100000035588", ⟨44727/10000, 5192237/100000, 60⟩)
  , ("0599100000305732", ⟨447305/100000, 5192235/100000, 50⟩)
  , ("0599100000603742", ⟨447423/100000, 5192156/100000, 45⟩)
  , ("0599100000679233", ⟨447387/100000, 5192348/100000, 55⟩)
  , ("0599100000603801", ⟨447302/100000, 5192119/100000, 40⟩) ]

/-- The default Rotterdam-center position returned when a building id is
missing from the predefined table. -/
def rotterdamFallbackPos : FloorGenerator.Carto :=
  ⟨447917/100000, 519225/10000, 40⟩

/-- Model of `getKnownBuildingPosition`: the predefined table entry when the
id is truthy and present, the default Rotterdam position otherwise. -/
def getKnownBuildingPosition (buildingId : Option String) :
    FloorGenerator.Carto :=
  match buildingId with
  | some id =>
    match knownBuildingsTable.lookup id with
    | some p => p
    | none => rotterdamFallbackPos
  | none => rotterdamFallbackPos

/-- Which branch of the position-resolution code produced an anchor. The tags
follow the source branches of `getEarthPositionFromScreen`: a live scene pick
(`globe.pick`), an ellipsoid pick (`camera.pickEllipsoid`), a hit in the
hand-surveyed table, or the city-center default. -/
inductive PositionResolution where
  | scenePick
  | ellipsoidPick
  | surveyedTable
  | cityDefault
  deriving DecidableEq, Repr

/-- Modelled from the spec: the quality ordering of the position-resolution
fallback chain (spec section 4.2, steps 1-7, earlier is better). The code
itself contains no such comparison; this rank only states the ordering the
claim asserts. Lower is better. -/
def resolutionRank : PositionResolution → Nat
  | .scenePick => 0
  | .ellipsoidPick => 1
  | .surveyedTable => 2
  | .cityDefault => 3

/-- Model of `getEarthPositionFromScreen`: null for a null screen position;
otherwise the globe pick, else the ellipsoid pick, else the predefined
position for the current building (which itself falls back to the city
default). The pick outcomes are inputs because they come from the opaque
scene. The second component records which branch produced the result. -/
def getEarthPositionFromScreen (screenPosition : Option Unit)
    (globePick pickEllipsoid : Option FloorGenerator.Carto)
    (currentBuildingId : Option String) :
    Option (FloorGenerator.Carto × PositionResolution) :=
  match screenPosition with
  | none => none
  | some _ =>
    match globePick with
    | some p => some (p, .scenePick)
    | none =>
      match pickEllipsoid with
      | some p => some (p, .ellipsoidPick)
      | none =>
        match currentBuildingId with
        | some id =>
          match knownBuildingsTable.lookup id with
          | some p => some (p, .surveyedTable)
          | none => some (rotterdamFallbackPos, .cityDefault)
        | none => some (rotterdamFallbackPos, .cityDefault)

/-- The cache write of `toggleFloorModels(true)`: resolve an earth position
for the selected building and, when one is found, store it with
`setBuildingPosition` — unconditionally, whatever was cached before. Returns
the updated generator state and the branch that produced the write. -/
def toggleFloorsPositionUpdate (s : FloorGenerator.State)
    (buildingId : String) (screenPosition : Option Unit)
    (globePick pickEllipsoid : Option FloorGenerator.Carto) :
    FloorGenerator.State × Option PositionResolution :=
  match getEarthPositionFromScreen screenPosition globePick pickEllipsoid
      (some buildingId) with
  | some (p, src) => (FloorGenerator.setBuildingPosition s buildingId p, some src)
  | none => (s, none)

end BuildingSelector

namespace FloorGenerator

/-- The documented degenerate default geometry of `extractDetailedGeometry`:
constant width 40, length 40, height 45 at the given anchor. -/
def degenerateDefaultGeometry (pos : Carto) : BuildingGeometry :=
  { position := pos, width := 40, length := 40, height := 45,
    isLShaped := false }

/-- The observable content of a feature as `extractDetailedGeometry` probes
it: the model-matrix translation, the primitive / tile / content bounding
spheres (center and radius, already in world coordinates), the `height`
property, and whether the extracted building id is the special L-shaped one. -/
structure FeatureContentInfo where
  modelMatrixPos : Option Carto
  primitiveBS : Option (Carto × ℚ)
  tileBS : Option (Carto × ℚ)
  contentBS : Option (Carto × ℚ)
  heightProp : Option ℚ
  isSpecialLShapedId : Bool
  deriving DecidableEq, Repr

/-- Model of `extractDetailedGeometry` (lines 320-520). With no feature
content it degrades to the constant default geometry around the stored
position (or fails with null when none is cached); the function only READS
the stored position — it never writes any cache. With content present, the
position is the stored one, else the model-matrix translation, else a
bounding-sphere center (primitive, then tile, then content); the bounding
sphere falls back to radius 40 around the position; width and length are
`radius * 1.6 * 0.8` and the height is the `height` property or
`radius * 2`. -/
def extractDetailedGeometry (content : Option FeatureContentInfo)
    (storedPosition : Option Carto) : Option BuildingGeometry :=
  match content with
  | none =>
    match storedPosition with
    | some p => some (degenerateDefaultGeometry p)
    | none => none
  | some c =>
    let position : Option Carto :=
      storedPosition <|> c.modelMatrixPos <|> (c.primitiveBS.map Prod.fst)
        <|> (c.tileBS.map Prod.fst) <|> (c.contentBS.map Prod.fst)
    let sphere : Option (Carto × ℚ) :=
      c.primitiveBS <|> c.tileBS <|> c.contentBS
    let sphere : Option (Carto × ℚ) :=
      match sphere with
      | some b => some b
      | none => position.map (fun p => (p, 40))
    match sphere with
    | none => none
    | some (bsCenter, radius) =>
      let finalPosition := position.getD bsCenter
      let width := radius * (8/5) * (4/5)
      some
        { position := finalPosition
          width := width
          length := width
          height := c.heightProp.getD (radius * 2)
          isLShaped := c.isSpecialLShapedId }

end FloorGenerator

/-! ## Dataset membership (BuildingDataLoader.js) -/

namespace BuildingDataLoader

/-- The observable state of a `BuildingDataLoader`: the id set and the
`loaded` flag. -/
structure State where
  buildingIds : List String
  loaded : Bool
  deriving DecidableEq, Repr

/-- Model of `hasBuildingId` (part_003 lines 60-79): before the set finishes
loading every query answers true; a falsy id (null, undefined or the empty
string) answers false; otherwise membership of the trimmed id. -/
def hasBuildingId (s : State) (buildingId : Option String) : Bool :=
  if !s.loaded then true
  else
    match buildingId with
    | none => false
    | some str =>
      if str = "" then false
      else s.buildingIds.contains (jsTrim str)

end BuildingDataLoader

/-! ## PropertyDataService.js -/

namespace PropertyDataService

/-- Model of `getAllPandIds`: `cachedIds` is the `databaseBuildingIds` field
and `fetched` the outcome of the `/pandids` fetch (an HTTP failure and a
transport rejection both surface as `Except.error`). The source's entire body
sits in a `try` whose `catch` returns `[]`, so every failure resolves to the
empty array; a success is also written back to the cache field (a state
effect not needed by the claims). -/
def getAllPandIds (cachedIds : Option (List String))
    (fetched : Except String (List String)) : Except String (List String) :=
  match cachedIds with
  | some ids => .ok ids
  | none =>
    match fetched with
    | .ok data => .ok data
    | .error _ => .ok []

/-- Model of `getPropertiesByPandId`: a falsy id throws synchronously; a
cache hit resolves immediately; otherwise the fetch outcome is returned, and
its `catch` clause re-throws the error (`throw error`) instead of swallowing
it. -/
def getPropertiesByPandId (pandId : String)
    (cache : List (String × List PropertyRecord))
    (fetched : Except String (List PropertyRecord)) :
    Except String (List PropertyRecord) :=
  if pandId = "" then .error "PANDID is required"
  else
    match JsMap.get cache pandId with
    | some d => .ok d
    | none =>
      match fetched with
      | .ok data => .ok data
      | .error e => .error e

end PropertyDataService

/-! ## The click handler's asynchronous selection flow (BuildingSelector.js) -/

namespace BuildingSelector

/-- What the info panel currently shows. -/
inductive Panel where
  | hidden
  | properties (records : List PropertyRecord)
  | error (msg : String)
  deriving DecidableEq, Repr

/-- The selection-relevant state of a `BuildingSelector`:
`currentBuildingId`, the info panel, the `buildingsWithInfo` set, and the
identifications and fetches that have been launched but whose `.then`
continuations have not yet run. A pending identification carries the id that
`getFeatureBuildingId` will resolve to (it is determined by the clicked
feature); a pending fetch carries the id it was launched for. -/
structure SelState where
  currentBuildingId : Option String
  panel : Panel
  buildingsWithInfo : List String
  pendingIdent : List (Option String)
  pendingFetch : List String
  deriving DecidableEq, Repr

/-- The selector state before any click. -/
def SelState.initial : SelState :=
  { currentBuildingId := none, panel := .hidden, buildingsWithInfo := []
    pendingIdent := [], pendingFetch := [] }

/-- One event of the single-threaded event loop: the synchronous part of a
click on a 3D feature, the completion of a pending identification or fetch
(by its queue index, so late completions can be interleaved arbitrarily), a
fetch rejection, or a click on empty space. -/
inductive SelEvent where
  | clickFeature (f : TileFeature)
  | identDone (k : Nat)
  | fetchDone (k : Nat) (records : List PropertyRecord)
  | fetchFail (k : Nat)
  | clickMiss
  deriving DecidableEq, Repr

/-- Model of `markBuildingHasInfo`: add to the `buildingsWithInfo` set. -/
def markBuildingHasInfo (infoSet : List String) (buildingId : String) :
    List String :=
  if infoSet.contains buildingId then infoSet else infoSet ++ [buildingId]

/-- One executed-to-completion handler of `onLeftClick`'s promise chain, with
floor mode off (`showFloorsForSelectedBuilding = false`, the initial
configuration), so the floor-generation branch is inert and UI-visible state
means panel, has-info set and current id.

* `clickFeature`: the synchronous prefix — `clearSelection` (a color
  restore), highlight, and the launch of `getFeatureBuildingId`.
* `identDone k`: the first `.then` — a non-null id is stored in
  `currentBuildingId` and its fetch is launched; a null id throws into the
  `.catch`, which shows a generic error.
* `fetchDone k records`: the second `.then` — non-empty records mark the
  CURRENT building id as having info and are displayed; empty records show
  the no-data error.
* `fetchFail k`: the `.catch` of a failed fetch.
* `clickMiss`: hide the panel, remove all floor models, clear the id.

An event for a queue index with no pending operation is not enabled
(`none`). No selection token of any kind appears in the source, so nothing
here compares a completion against the selection that launched it. -/
def selStep (s : SelState) : SelEvent → Option SelState
  | .clickFeature f =>
    some { s with pendingIdent := s.pendingIdent ++ [getFeatureBuildingId f] }
  | .identDone k =>
    match s.pendingIdent[k]? with
    | none => none
    | some r =>
      let s1 := { s with pendingIdent := s.pendingIdent.eraseIdx k }
      match r with
      | some pandId =>
        some { s1 with
          currentBuildingId := some pandId
          pendingFetch := s1.pendingFetch ++ [pandId] }
      | none =>
        some { s1 with panel := .error "Error retrieving building data" }
  | .fetchDone k records =>
    match s.pendingFetch[k]? with
    | none => none
    | some _ =>
      let s1 := { s with pendingFetch := s.pendingFetch.eraseIdx k }
      if records.length > 0 then
        let withInfo :=
          match s1.currentBuildingId with
          | some b => markBuildingHasInfo s1.buildingsWithInfo b
          | none => s1.buildingsWithInfo
        some { s1 with
          buildingsWithInfo := withInfo
          panel := .properties records }
      else
        some { s1 with panel := .error "No property data available" }
  | .fetchFail k =>
    match s.pendingFetch[k]? with
    | none => none
    | some _ =>
      some { s with
        pendingFetch := s.pendingFetch.eraseIdx k
        panel := .error "Error retrieving building data" }
  | .clickMiss =>
    some { s with panel := .hidden, currentBuildingId := none }

/-- Run a list of events from a state, failing if any event is not enabled. -/
def runSelEvents (s : SelState) : List SelEvent → Option SelState
  | [] => some s
  | e :: rest =>
    match selStep s e with
    | some s1 => runSelEvents s1 rest
    | none => none

end BuildingSelector

/-! ## Map lemmas shared by the claim proofs -/

theorem JsMap.get_cons {α : Type} (k0 : String) (v0 : α)
    (tl : List (String × α)) (k' : String) :
    JsMap.get ((k0, v0) :: tl) k' = if k' = k0 then some v0 else JsMap.get tl k' := by
  by_cases h : k' = k0
  · simp [JsMap.get, List.lookup, h]
  · have hb : (k' == k0) = false := beq_eq_false_iff_ne.mpr h
    simp [JsMap.get, List.lookup, hb, h]

theorem JsMap.get_set {α : Type} (m : List (String × α)) (k k' : String) (v : α) :
    JsMap.get (JsMap.set m k v) k' = if k' = k then some v else JsMap.get m k' := by
  induction m with
  | nil =>
    rw [show JsMap.set ([] : List (String × α)) k v = [(k, v)] from rfl, JsMap.get_cons]
  | cons hd tl ih =>
    obtain ⟨k0, v0⟩ := hd
    by_cases h : k0 = k
    · subst h
      rw [show JsMap.set ((k0, v0) :: tl) k0 v = (k0, v) :: tl from by simp [JsMap.set]]
      rw [JsMap.get_cons, JsMap.get_cons]
      by_cases h2 : k' = k0 <;> simp [h2]
    · rw [show JsMap.set ((k0, v0) :: tl) k v = (k0, v0) :: JsMap.set tl k v from by
        simp [JsMap.set, h]]
      rw [JsMap.get_cons, ih, JsMap.get_cons]
      by_cases h2 : k' = k0
      · have hne : k' ≠ k := by rw [h2]; exact h
        simp [h2, hne, h]
      · simp [h2]

theorem JsMap.get_del {α : Type} (m : List (String × α)) (k k' : String) :
    JsMap.get (JsMap.del m k) k' = if k' = k then none else JsMap.get m k' := by
  induction m with
  | nil => by_cases h : k' = k <;> simp [JsMap.get, JsMap.del, List.lookup, h]
  | cons hd tl ih =>
    obtain ⟨k0, v0⟩ := hd
    by_cases h : k0 = k
    · rw [show JsMap.del ((k0, v0) :: tl) k = JsMap.del tl k from by simp [JsMap.del, h]]
      rw [ih]
      by_cases h2 : k' = k
      · simp [h2]
      · have h2b : k' ≠ k0 := by rw [h]; exact h2
        rw [JsMap.get_cons]
        simp [h2, h2b]
    · rw [show JsMap.del ((k0, v0) :: tl) k = (k0, v0) :: JsMap.del tl k from by
        simp [JsMap.del, h]]
      rw [JsMap.get_cons, ih, JsMap.get_cons]
      by_cases h2 : k' = k0
      · have hne : k' ≠ k := by rw [h2]; exact h
        simp [h2, hne, h]
      · simp [h2]

theorem JsMap.set_set {α : Type} (m : List (String × α)) (k : String) (v1 v2 : α) :
    JsMap.set (JsMap.set m k v1) k v2 = JsMap.set m k v2 := by
  induction m with
  | nil => simp [JsMap.set]
  | cons hd tl ih =>
    obtain ⟨k0, v0⟩ := hd
    by_cases h : k0 = k
    · subst h; simp [JsMap.set]
    · simp [JsMap.set, h, ih]

/-! ## Claim theorems -/

/-- C8: before the dataset-membership set finishes loading
(`loaded = false`), `BuildingDataLoader.hasBuildingId` classifies every
queried feature — whatever id was resolved for it, including null and the
empty string — as a member (returns true). -/
theorem hasBuildingId_optimistic_before_load :
    ∀ (ids : List String) (buildingId : Option String),
      BuildingDataLoader.hasBuildingId { buildingIds := ids, loaded := false }
        buildingId = true := by
  intro ids buildingId
  rfl

/-- C9: `setFloorsVisible` is idempotent and never recomputes or recreates
descriptors: applying it twice with the same arguments equals applying it
once, and the resulting entity list for every building is exactly the
original list with only the `show` flag rewritten (other buildings are
untouched), so no duplicate descriptors can arise. -/
theorem setFloorsVisible_idempotent :
    ∀ (s : FloorGenerator.State) (bid : String) (v : Bool),
      FloorGenerator.setFloorsVisible (FloorGenerator.setFloorsVisible s bid v) bid v
        = FloorGenerator.setFloorsVisible s bid v
      ∧ ∀ b, JsMap.get (FloorGenerator.setFloorsVisible s bid v).floorEntities b
          = if b = bid then
              (JsMap.get s.floorEntities bid).map
                (List.map (fun e => { e with visible := v }))
            else JsMap.get s.floorEntities b := by
  intro s bid v
  cases h : JsMap.get s.floorEntities bid with
  | none =>
    have e1 : FloorGenerator.setFloorsVisible s bid v = s := by
      simp [FloorGenerator.setFloorsVisible, h]
    refine ⟨by rw [e1, e1], ?_⟩
    intro b
    rw [e1]
    by_cases hb : b = bid
    · subst hb; simp [h]
    · simp [hb]
  | some ents =>
    by_cases hlen : ents.length > 0
    · have e1 : FloorGenerator.setFloorsVisible s bid v
          = { s with floorEntities :=
                JsMap.set s.floorEntities bid (ents.map (fun e => { e with visible := v })) } := by
        simp [FloorGenerator.setFloorsVisible, h, hlen]
      have hmapmap : (ents.map (fun e => { e with visible := v })).map
          (fun e => { e with visible := v }) = ents.map (fun e => { e with visible := v }) := by
        rw [List.map_map]
        rfl
      have hget1 : JsMap.get (JsMap.set s.floorEntities bid
            (ents.map (fun e => { e with visible := v }))) bid
          = some (ents.map (fun e => { e with visible := v })) := by
        rw [JsMap.get_set]; simp
      constructor
      · rw [e1]
        have hlen2 : (ents.map (fun e => { e with visible := v })).length > 0 := by
          simpa using hlen
        simp only [FloorGenerator.setFloorsVisible, hget1, hlen2, if_pos]
        simp [hmapmap, JsMap.set_set]
      · intro b
        rw [e1]
        by_cases hb : b = bid
        · subst hb
          simp only [JsMap.get_set, if_pos rfl, h]
          rfl
        · simp [JsMap.get_set, hb]
    · have hnil : ents = [] := by
        cases ents with
        | nil => rfl
        | cons a l => simp at hlen
      subst hnil
      have e1 : FloorGenerator.setFloorsVisible s bid v = s := by
        simp [FloorGenerator.setFloorsVisible, h]
      refine ⟨by rw [e1, e1], ?_⟩
      intro b
      rw [e1]
      by_cases hb : b = bid
      · subst hb; simp [h]
      · simp [hb]

/-- C10: `PropertyDataService.getAllPandIds` never rejects — for every cache
state and fetch outcome it resolves with some array, and a transport failure
on a cold cache resolves with the empty array (indistinguishable from an
empty dataset) — whereas `getPropertiesByPandId` re-throws the transport
error of a non-cached fetch for a non-empty id. -/
theorem getAllPandIds_never_rejects :
    (∀ (cachedIds : Option (List String)) (fetched : Except String (List String)),
      ∃ ids, PropertyDataService.getAllPandIds cachedIds fetched = Except.ok ids)
    ∧ (∀ e, PropertyDataService.getAllPandIds none (Except.error e) = Except.ok [])
    ∧ (∀ (pandId : String) (cache : List (String × List PropertyRecord)) (e : String),
        pandId ≠ "" → JsMap.get cache pandId = none →
        PropertyDataService.getPropertiesByPandId pandId cache (Except.error e)
          = Except.error e) := by
  refine ⟨?_, ?_, ?_⟩
  · intro cachedIds fetched
    cases cachedIds with
    | some ids => exact ⟨ids, rfl⟩
    | none =>
      cases fetched with
      | ok data => exact ⟨data, rfl⟩
      | error e => exact ⟨[], rfl⟩
  · intro e
    rfl
  · intro pandId cache e hne hmiss
    simp [PropertyDataService.getPropertiesByPandId, hne, hmiss]

/-- Witness for C10: the hypotheses of the third conjunct are satisfiable —
a concrete non-empty id, empty cache and failed fetch re-throw the error,
while the same failed fetch of the id list resolves with the empty array. -/
theorem getAllPandIds_never_rejects_witness :
    ("0599100000668111" : String) ≠ ""
    ∧ JsMap.get ([] : List (String × List PropertyRecord)) "0599100000668111" = none
    ∧ PropertyDataService.getPropertiesByPandId "0599100000668111" []
        (Except.error "HTTP error 500") = Except.error "HTTP error 500"
    ∧ PropertyDataService.getAllPandIds none (Except.error "HTTP error 500")
        = Except.ok [] :=
  ⟨by decide, rfl,
    getAllPandIds_never_rejects.2.2 "0599100000668111" [] "HTTP error 500"
      (by decide) rfl,
    getAllPandIds_never_rejects.2.1 "HTTP error 500"⟩

/-- A feature whose only property value embeds a sixteen-digit numeral under
a name that is neither canonical nor id-like, with no batch table. -/
def identifierCexFeature : TileFeature :=
  { props := [("description", .str "pand 0599100000668111 vlakbij")], batch := none }

/-- C3 counterexample: the claimed fourth strategy (a fallback scan of every
property value for an embedded 16-digit substring) does not exist —
`getFeatureBuildingId` returns null on a feature whose property value embeds
such a substring, while the spec's four-strategy identifier would return it,
so the identifier does NOT "return null only when all four strategies are
exhausted". -/
theorem identifier_missing_fallback_scan_cex :
    BuildingSelector.getFeatureBuildingId identifierCexFeature = none
    ∧ BuildingSelector.specFeatureIdentifier identifierCexFeature
        = some "0599100000668111" := by
  constructor
  · decide
  · decide

/-- C3 amended: `getFeatureBuildingId` tries exactly THREE strategies in a
fixed order with the first success winning — the canonical-name list with the
exact 16-digit test, the `gml:id` embedded-substring extraction, and the
batch-table search of id-like names — and returns null exactly when all three
fail; no fourth all-values fallback scan is performed. -/
theorem identifier_first_three_strategies :
    ∀ f : TileFeature,
      BuildingSelector.getFeatureBuildingId f
        = (BuildingSelector.canonicalScan f BuildingSelector.canonicalNames).orElse
            (fun _ => (BuildingSelector.gmlIdScan f).orElse
              (fun _ => BuildingSelector.extractBuildingIdFromFeature f))
      ∧ (BuildingSelector.getFeatureBuildingId f = none ↔
          BuildingSelector.canonicalScan f BuildingSelector.canonicalNames = none
            ∧ BuildingSelector.gmlIdScan f = none
            ∧ BuildingSelector.extractBuildingIdFromFeature f = none) := by
  intro f
  unfold BuildingSelector.getFeatureBuildingId
  cases h1 : BuildingSelector.canonicalScan f BuildingSelector.canonicalNames with
  | some v => simp [Option.orElse]
  | none =>
    cases h2 : BuildingSelector.gmlIdScan f with
    | some v => simp [Option.orElse]
    | none =>
      cases h3 : BuildingSelector.extractBuildingIdFromFeature f with
      | some v => simp [Option.orElse]
      | none => simp [Option.orElse]

/-- Records with no explicit floor count and no floor range, but two distinct
observed floor indices (0 and 1). -/
def floorCountCexRecords : List PropertyRecord :=
  [ { pandid := "0599100000668111", aant_bwlg_pnd := none, hoogste_bwlg_pnd := none,
      laagste_bwlg_pnd := none, bwlg_vb0 := some 0 }
  , { pandid := "0599100000668111", aant_bwlg_pnd := none, hoogste_bwlg_pnd := none,
      laagste_bwlg_pnd := none, bwlg_vb0 := some 1 } ]

/-- An ordinary building geometry used to run the generation pipeline. -/
def floorCountCexGeometry : FloorGenerator.BuildingGeometry :=
  { position := ⟨4, 51, 100⟩, width := 40, length := 40, height := 45, isLShaped := false }

/-- C2 counterexample: for a non-empty record list with neither an explicit
total-floor field nor a floor range, the floor count actually used by the
generation pipeline (`getDetailedFloorInfo`, called by `generateFloorModels`)
is the constant 9 — nine floor entities are generated — not the claimed count
of distinct observed floor indices (2, which is what the uncalled
`getTotalFloors` would produce) and not the claimed default 15. -/
theorem floorCount_defaults_to_nine_cex :
    FloorGenerator.getDetailedFloorInfo floorCountCexRecords = some 9
    ∧ FloorGenerator.getTotalFloors floorCountCexRecords = 2
    ∧ (JsMap.get ((FloorGenerator.generateFloorModels FloorGenerator.State.initial
          "0599100000668111" floorCountCexGeometry floorCountCexRecords).1.floorEntities)
          "0599100000668111").map List.length = some 9
    ∧ (9 : Int) ≠ 2 ∧ (9 : Int) ≠ 15 :=
  ⟨by decide, by decide, by decide, by decide, by decide⟩

/-- C2 amended: the floor count used by `generateFloorModels` is resolved by
`getDetailedFloorInfo` with priority (a) the first record's explicit
total-floor field when positive, else (b) highest − lowest + 1 when both
fields are present, else the constant default 9; the claimed four-step
priority (a), (b), distinct-index count, default 15 is implemented only by
`getTotalFloors`, which the floor pipeline never calls. The generated entity
count equals the resolved total whenever it is positive. -/
theorem floorCountResolution_amended :
    ∀ (first : PropertyRecord) (rest : List PropertyRecord),
      (∀ a : Int, first.aant_bwlg_pnd = some a → 0 < a →
        FloorGenerator.detailedTotalFloors first = a
        ∧ FloorGenerator.getTotalFloors (first :: rest) = a)
      ∧ (first.aant_bwlg_pnd = none →
          ∀ h l : Int, first.hoogste_bwlg_pnd = some h → first.laagste_bwlg_pnd = some l →
          FloorGenerator.detailedTotalFloors first = h - l + 1
          ∧ FloorGenerator.getTotalFloors (first :: rest) = h - l + 1)
      ∧ (first.aant_bwlg_pnd = none → first.hoogste_bwlg_pnd = none →
          FloorGenerator.detailedTotalFloors first = 9
          ∧ FloorGenerator.getTotalFloors (first :: rest)
              = (if 0 < FloorGenerator.uniqueFloorCount (first :: rest)
                  then (FloorGenerator.uniqueFloorCount (first :: rest) : Int) else 15))
      ∧ (∀ (s : FloorGenerator.State) (bid : String)
            (geom : FloorGenerator.BuildingGeometry),
          0 < FloorGenerator.detailedTotalFloors first →
          (JsMap.get ((FloorGenerator.generateFloorModels s bid geom
              (first :: rest)).1.floorEntities) bid).map List.length
            = some (FloorGenerator.detailedTotalFloors first).toNat) := by
  intro first rest
  refine ⟨?_, ?_, ?_, ?_⟩
  · intro a ha hpos
    have hne : a ≠ 0 := hpos.ne'
    constructor
    · simp [FloorGenerator.detailedTotalFloors, ha, hne, hpos]
    · simp [FloorGenerator.getTotalFloors, ha, hne, hpos]
  · intro hn h l hh hl
    constructor
    · simp [FloorGenerator.detailedTotalFloors, hn, hh, hl]
    · simp [FloorGenerator.getTotalFloors,
        FloorGenerator.getTotalFloors.getTotalFloorsFallback, hn, hh, hl]
  · intro hn hh
    constructor
    · simp [FloorGenerator.detailedTotalFloors, hn, hh]
    · by_cases hu : 0 < FloorGenerator.uniqueFloorCount (first :: rest)
      · simp [FloorGenerator.getTotalFloors,
          FloorGenerator.getTotalFloors.getTotalFloorsFallback, hn, hh, hu]
      · simp [FloorGenerator.getTotalFloors,
          FloorGenerator.getTotalFloors.getTotalFloorsFallback, hn, hh, hu]
  · intro s bid geom hpos
    have hinfo : FloorGenerator.getDetailedFloorInfo (first :: rest)
        = some (FloorGenerator.detailedTotalFloors first) := rfl
    have hle : ¬ FloorGenerator.detailedTotalFloors first ≤ 0 := not_le.mpr hpos
    simp only [FloorGenerator.generateFloorModels, hinfo, hle, if_neg, ite_false]
    rw [JsMap.get_set]
    simp [FloorGenerator.generateFloorEntities]

/-- The record used to witness the amended floor-count resolution. -/
def floorCountWitnessRecord : PropertyRecord :=
  { pandid := "0599100000668111", aant_bwlg_pnd := some 4,
    hoogste_bwlg_pnd := some 7, laagste_bwlg_pnd := some 1, bwlg_vb0 := some 0 }

/-- Witness for C2's amended theorem: a record with a positive explicit
total-floor field 4 resolves to 4 on both resolvers and produces exactly
4 generated floor entities. -/
theorem floorCountResolution_amended_witness :
    FloorGenerator.detailedTotalFloors floorCountWitnessRecord = 4
    ∧ FloorGenerator.getTotalFloors [floorCountWitnessRecord] = 4
    ∧ (JsMap.get ((FloorGenerator.generateFloorModels FloorGenerator.State.initial
          "0599100000668111" floorCountCexGeometry
          [floorCountWitnessRecord]).1.floorEntities) "0599100000668111").map
        List.length
        = some (FloorGenerator.detailedTotalFloors floorCountWitnessRecord).toNat :=
  ⟨((floorCountResolution_amended floorCountWitnessRecord []).1 4 rfl
      (by decide)).1,
   ((floorCountResolution_amended floorCountWitnessRecord []).1 4 rfl
      (by decide)).2,
   (floorCountResolution_amended floorCountWitnessRecord []).2.2.2
      FloorGenerator.State.initial "0599100000668111" floorCountCexGeometry
      (by decide)⟩

/-- C7 counterexample: with 3 floors, the middle floor's hue is 3/10, but the
linear interpolation between the endpoint hues (ground red, hue 0; top blue,
hue 2/3) at index/(floorCount−1) = 1/2 is 1/3 ≠ 3/10 — the implemented
gradient runs from hue 0.6 at the bottom toward hue 0 at the top, the reverse
direction of the endpoint colors and not anchored at their hues. With a single
floor the ground color also wins over the claimed top color. -/
theorem floorColor_hue_not_endpoint_lerp_cex :
    FloorGenerator.getFloorColor 1 3 = .hsl (3/10) (4/5) (3/5) (4/5)
    ∧ FloorGenerator.hueOf (FloorGenerator.getFloorColor 0 3)
        + ((1 : ℚ)/2) * (FloorGenerator.hueOf (FloorGenerator.getFloorColor 2 3)
            - FloorGenerator.hueOf (FloorGenerator.getFloorColor 0 3)) = 1/3
    ∧ FloorGenerator.hueOf (FloorGenerator.getFloorColor 1 3) ≠ 1/3
    ∧ FloorGenerator.getFloorColor 0 1 = .redAlpha (4/5) := by
  refine ⟨?_, ?_, ?_, ?_⟩
  · simp [FloorGenerator.getFloorColor]
    norm_num
  · simp [FloorGenerator.getFloorColor, FloorGenerator.hueOf]
    norm_num
  · simp [FloorGenerator.getFloorColor, FloorGenerator.hueOf]
    norm_num
  · simp [FloorGenerator.getFloorColor]

/-- C7 amended: the gradient is deterministic with floor 0 the fixed ground
color (red, taking precedence when it is also the top floor) and the top
floor the fixed top color (blue); every intermediate floor's color is
`fromHsl(0.6 − (index/(floorCount−1))·0.6, 0.8, 0.6, 0.8)` — hue linear in
index/(floorCount−1), falling from 0.6 to 0, not an interpolation between
the endpoint colors' hues. -/
theorem floorColorGradient_amended :
    ∀ (n i : ℕ),
      (i = 0 → FloorGenerator.getFloorColor i n = .redAlpha (4/5))
      ∧ (0 < i → i = n - 1 → FloorGenerator.getFloorColor i n = .blueAlpha (4/5))
      ∧ (0 < i → i < n - 1 →
          FloorGenerator.getFloorColor i n
            = .hsl ((3/5) - ((i : ℚ) / ((n : ℚ) - 1)) * (3/5)) (4/5) (3/5) (4/5)) := by
  intro n i
  refine ⟨?_, ?_, ?_⟩
  · intro h
    subst h
    simp [FloorGenerator.getFloorColor]
  · intro hpos heq
    simp [FloorGenerator.getFloorColor, hpos.ne', heq]
    omega
  · intro hpos hlt
    have hne0 : i ≠ 0 := hpos.ne'
    have hnetop : i ≠ n - 1 := Nat.ne_of_lt hlt
    have h1n : 1 ≤ n - 1 := by omega
    have hmax : max 1 (n - 1) = n - 1 := Nat.max_eq_right h1n
    have hcast : ((n - 1 : ℕ) : ℚ) = (n : ℚ) - 1 := by
      have h1 : 1 ≤ n := by omega
      push_cast [h1]
      ring
    simp only [FloorGenerator.getFloorColor, hne0, hnetop, if_false, hmax, hcast]

/-- Witness for C7's amended theorem at floorCount 5: ground, top and the
intermediate floor 2 have the stated colors. -/
theorem floorColorGradient_amended_witness :
    FloorGenerator.getFloorColor 0 5 = .redAlpha (4/5)
    ∧ FloorGenerator.getFloorColor 4 5 = .blueAlpha (4/5)
    ∧ FloorGenerator.getFloorColor 2 5
        = .hsl ((3/5) - ((2 : ℚ) / ((5 : ℚ) - 1)) * (3/5)) (4/5) (3/5) (4/5) :=
  ⟨(floorColorGradient_amended 5 0).1 rfl,
   (floorColorGradient_amended 5 4).2.1 (by decide) (by decide),
   (floorColorGradient_amended 5 2).2.2 (by decide) (by decide)⟩

/-- The feature whose identification resolves to building X. -/
def staleCexFeatureX : TileFeature :=
  { props := [("PANDID", .str "0599100000000001")], batch := none }

/-- The feature whose identification resolves to building Y. -/
def staleCexFeatureY : TileFeature :=
  { props := [("PANDID", .str "0599100000000002")], batch := none }

/-- The records that building X's pending fetch eventually resolves with. -/
def staleCexRecordsX : List PropertyRecord :=
  [ { pandid := "0599100000000001", aant_bwlg_pnd := some 2,
      hoogste_bwlg_pnd := none, laagste_bwlg_pnd := none, bwlg_vb0 := some 0 } ]

/-- Scenario E as an event trace: pick X, X identified (fetch for X
launched), pick Y, Y identified (selection advances to Y), and only then
X's fetch resolves. -/
def staleCexTrace : List BuildingSelector.SelEvent :=
  [ .clickFeature staleCexFeatureX
  , .identDone 0
  , .clickFeature staleCexFeatureY
  , .identDone 0
  , .fetchDone 0 staleCexRecordsX ]

/-- C1 counterexample: no selection token exists in the click handler, so in
Scenario E — a new pick for building Y while the fetch for building X is
pending — X's later-resolving fetch result IS applied to UI-visible state:
the info panel displays X's records even though the selection has advanced
to Y, and the has-info mark is even applied to Y on the strength of X's
records. -/
theorem stale_fetch_result_displayed_cex :
    (BuildingSelector.runSelEvents BuildingSelector.SelState.initial
        staleCexTrace).map BuildingSelector.SelState.panel
      = some (.properties staleCexRecordsX)
    ∧ (BuildingSelector.runSelEvents BuildingSelector.SelState.initial
        staleCexTrace).map BuildingSelector.SelState.currentBuildingId
      = some (some "0599100000000002")
    ∧ (BuildingSelector.runSelEvents BuildingSelector.SelState.initial
        staleCexTrace).map BuildingSelector.SelState.buildingsWithInfo
      = some ["0599100000000002"]
    ∧ ("0599100000000001" : String) ≠ "0599100000000002" :=
  ⟨by decide, by decide, by decide, by decide⟩

/-- C1 amended: the click handler has no stale-response guard of any kind —
whenever a pending fetch resolves with non-empty records, its `.then`
continuation unconditionally displays those records in the info panel and
marks the CURRENT selection's building id (not necessarily the one the fetch
was launched for) as having info. -/
theorem fetch_result_applied_unconditionally :
    ∀ (s : BuildingSelector.SelState) (k : ℕ) (p : String)
      (records : List PropertyRecord),
      s.pendingFetch[k]? = some p → records ≠ [] →
      (BuildingSelector.selStep s (.fetchDone k records)).map
          BuildingSelector.SelState.panel
        = some (.properties records)
      ∧ ∀ b, s.currentBuildingId = some b →
          (BuildingSelector.selStep s (.fetchDone k records)).map
              BuildingSelector.SelState.buildingsWithInfo
            = some (BuildingSelector.markBuildingHasInfo s.buildingsWithInfo b) := by
  intro s k p records hk hrec
  have hlen : records.length > 0 := List.length_pos.mpr hrec
  constructor
  · cases hcur : s.currentBuildingId with
    | some b => simp [BuildingSelector.selStep, hk, hlen, hcur]
    | none => simp [BuildingSelector.selStep, hk, hlen, hcur]
  · intro b hb
    simp [BuildingSelector.selStep, hk, hlen, hb]

/-- A selector state with a pending fetch for X while the current selection
has already advanced to Y. -/
def staleWitnessState : BuildingSelector.SelState :=
  { currentBuildingId := some "0599100000000002", panel := .hidden,
    buildingsWithInfo := [], pendingIdent := [],
    pendingFetch := ["0599100000000001"] }

/-- Witness for C1's amended theorem: with a pending fetch for X and the
selection at Y, the fetch completion displays X's records and marks Y. -/
theorem fetch_result_applied_unconditionally_witness :
    staleWitnessState.pendingFetch[0]? = some "0599100000000001"
    ∧ staleCexRecordsX ≠ []
    ∧ (BuildingSelector.selStep staleWitnessState
        (.fetchDone 0 staleCexRecordsX)).map BuildingSelector.SelState.panel
      = some (.properties staleCexRecordsX)
    ∧ (BuildingSelector.selStep staleWitnessState
        (.fetchDone 0 staleCexRecordsX)).map
          BuildingSelector.SelState.buildingsWithInfo
      = some ["0599100000000002"] :=
  ⟨rfl, by decide,
   (fetch_result_applied_unconditionally staleWitnessState 0
      "0599100000000001" staleCexRecordsX rfl (by decide)).1,
   by
     have h := (fetch_result_applied_unconditionally staleWitnessState 0
        "0599100000000001" staleCexRecordsX rfl (by decide)).2
        "0599100000000002" rfl
     simpa [BuildingSelector.markBuildingHasInfo, staleWitnessState] using h⟩

/-- Geometry for the two-active-buildings trace. -/
def activeCexGeometry : FloorGenerator.BuildingGeometry :=
  { position := ⟨4, 51, 100⟩, width := 40, length := 40, height := 45,
    isLShaped := false }

/-- The earth position resolved for the first building's toggle. -/
def activeCexPos : FloorGenerator.Carto := ⟨4, 51, 30⟩

/-- Records of the first selected building. -/
def activeCexRecordsA : List PropertyRecord :=
  [ { pandid := "0599100000000001", aant_bwlg_pnd := some 2,
      hoogste_bwlg_pnd := none, laagste_bwlg_pnd := none, bwlg_vb0 := some 0 } ]

/-- Records of the second selected building. -/
def activeCexRecordsB : List PropertyRecord :=
  [ { pandid := "0599100000000002", aant_bwlg_pnd := some 2,
      hoogste_bwlg_pnd := none, laagste_bwlg_pnd := none, bwlg_vb0 := some 0 } ]

/-- C5 counterexample: toggling floors on for building A and then picking
building B (with floor mode still on, the path through `generateFloors`)
leaves BOTH buildings' floor entities in the active-descriptor map, all
visible — `generateFloorModels` removes only its own building's previous
floors, so the single-active-building invariant is violated. -/
theorem two_buildings_floors_active_cex :
    JsMap.keys ((BuildingSelector.generateFloorsOnPick
        (BuildingSelector.toggleFloorsOn FloorGenerator.State.initial
          "0599100000000001" (some activeCexPos) activeCexGeometry
          activeCexRecordsA).1
        "0599100000000002" activeCexGeometry
        activeCexRecordsB).1.floorEntities)
      = ["0599100000000001", "0599100000000002"]
    ∧ (JsMap.get ((BuildingSelector.generateFloorsOnPick
        (BuildingSelector.toggleFloorsOn FloorGenerator.State.initial
          "0599100000000001" (some activeCexPos) activeCexGeometry
          activeCexRecordsA).1
        "0599100000000002" activeCexGeometry
        activeCexRecordsB).1.floorEntities) "0599100000000001").map
        (fun l => l.all (fun e => e.visible)) = some true
    ∧ (JsMap.get ((BuildingSelector.generateFloorsOnPick
        (BuildingSelector.toggleFloorsOn FloorGenerator.State.initial
          "0599100000000001" (some activeCexPos) activeCexGeometry
          activeCexRecordsA).1
        "0599100000000002" activeCexGeometry
        activeCexRecordsB).1.floorEntities) "0599100000000002").map
        (fun l => l.all (fun e => e.visible)) = some true
    ∧ ("0599100000000001" : String) ≠ "0599100000000002" :=
  ⟨by decide, by decide, by decide, by decide⟩

/-- C5 amended: a new selection's floor generation does NOT first remove
other buildings' floors — `generateFloorModels` leaves every other building's
descriptor-map entry untouched; only the toggle-on path (which calls
`removeAllFloorModels` first) and the empty-click path guarantee that no
other building's floors remain. -/
theorem floor_removal_scope_amended :
    ∀ (s : FloorGenerator.State) (bid : String)
      (geom : FloorGenerator.BuildingGeometry) (props : List PropertyRecord)
      (pos : Option FloorGenerator.Carto) (b : String),
      (b ≠ bid →
        JsMap.get ((FloorGenerator.generateFloorModels s bid geom
            props).1.floorEntities) b
          = JsMap.get s.floorEntities b)
      ∧ (b ≠ bid →
        JsMap.get ((BuildingSelector.toggleFloorsOn s bid pos geom
            props).1.floorEntities) b
          = none)
      ∧ (BuildingSelector.clickMissFloors s).floorEntities = [] := by
  intro s bid geom props pos b
  have hgen : ∀ s' : FloorGenerator.State, b ≠ bid →
      JsMap.get ((FloorGenerator.generateFloorModels s' bid geom
          props).1.floorEntities) b
        = JsMap.get s'.floorEntities b := by
    intro s' hb
    cases hinfo : FloorGenerator.getDetailedFloorInfo props with
    | none => simp [FloorGenerator.generateFloorModels, hinfo]
    | some total =>
      by_cases hle : total ≤ 0
      · simp [FloorGenerator.generateFloorModels, hinfo, hle]
      · simp only [FloorGenerator.generateFloorModels, hinfo, hle, ite_false]
        rw [JsMap.get_set]
        simp only [FloorGenerator.removeFloorModels]
        rw [JsMap.get_del]
        simp [hb]
  refine ⟨hgen s, ?_, rfl⟩
  intro hb
  have hmid : ((match pos with
      | some p => FloorGenerator.setBuildingPosition
          (FloorGenerator.removeAllFloorModels s) bid p
      | none => FloorGenerator.removeAllFloorModels s) :
        FloorGenerator.State).floorEntities = [] := by
    cases pos <;> rfl
  show JsMap.get ((FloorGenerator.generateFloorModels _ bid geom
      props).1.floorEntities) b = none
  rw [hgen _ hb, hmid]
  rfl

/-- A generator state that already holds (empty) floors for another building. -/
def scopeWitnessState : FloorGenerator.State :=
  { floorEntities := [("0599100000000009", [])], activeBuilding := none,
    buildingPositions := [] }

/-- Witness for C5's amended theorem: generating for one building leaves the
other building's map entry untouched, the toggle-on path clears it, and an
empty click clears everything. -/
theorem floor_removal_scope_amended_witness :
    ("0599100000000009" : String) ≠ "0599100000000002"
    ∧ JsMap.get ((FloorGenerator.generateFloorModels scopeWitnessState
        "0599100000000002" activeCexGeometry
        activeCexRecordsB).1.floorEntities) "0599100000000009"
      = JsMap.get scopeWitnessState.floorEntities "0599100000000009"
    ∧ JsMap.get ((BuildingSelector.toggleFloorsOn scopeWitnessState
        "0599100000000002" none activeCexGeometry
        activeCexRecordsB).1.floorEntities) "0599100000000009"
      = none
    ∧ (BuildingSelector.clickMissFloors scopeWitnessState).floorEntities = [] :=
  ⟨by decide,
   (floor_removal_scope_amended scopeWitnessState "0599100000000002"
      activeCexGeometry activeCexRecordsB none "0599100000000009").1 (by decide),
   (floor_removal_scope_amended scopeWitnessState "0599100000000002"
      activeCexGeometry activeCexRecordsB none "0599100000000009").2.1 (by decide),
   (floor_removal_scope_amended scopeWitnessState "0599100000000002"
      activeCexGeometry activeCexRecordsB none "0599100000000009").2.2⟩

/-- A building id that is not in the hand-surveyed position table. -/
def qualityCexBid : String := "0599100009999999"

/-- A precise position obtained from a successful scene pick. -/
def qualityCexPickedPos : FloorGenerator.Carto := ⟨4, 51, 30⟩

/-- C6 counterexample: the per-building position cache is NOT "overwritten
only by equal-or-better-quality resolutions" — after a first toggle caches a
precise scene-pick position (best rank), a second toggle whose picks both
fail resolves through the city-center default (worst rank, the spec's step-7
anchor) and `setBuildingPosition` overwrites the cached precise position with
it unconditionally. -/
theorem position_cache_quality_regression_cex :
    (BuildingSelector.toggleFloorsPositionUpdate FloorGenerator.State.initial
        qualityCexBid (some ()) (some qualityCexPickedPos) none).2
      = some .scenePick
    ∧ JsMap.get (BuildingSelector.toggleFloorsPositionUpdate
        FloorGenerator.State.initial qualityCexBid (some ())
        (some qualityCexPickedPos) none).1.buildingPositions qualityCexBid
      = some qualityCexPickedPos
    ∧ (BuildingSelector.toggleFloorsPositionUpdate
        (BuildingSelector.toggleFloorsPositionUpdate FloorGenerator.State.initial
          qualityCexBid (some ()) (some qualityCexPickedPos) none).1
        qualityCexBid (some ()) none none).2
      = some .cityDefault
    ∧ JsMap.get (BuildingSelector.toggleFloorsPositionUpdate
        (BuildingSelector.toggleFloorsPositionUpdate FloorGenerator.State.initial
          qualityCexBid (some ()) (some qualityCexPickedPos) none).1
        qualityCexBid (some ()) none none).1.buildingPositions qualityCexBid
      = some BuildingSelector.rotterdamFallbackPos
    ∧ BuildingSelector.rotterdamFallbackPos ≠ qualityCexPickedPos
    ∧ BuildingSelector.resolutionRank .scenePick
        < BuildingSelector.resolutionRank .cityDefault := by
  refine ⟨rfl, rfl, rfl, rfl, ?_, by decide⟩
  intro h
  have hh := congrArg FloorGenerator.Carto.height h
  norm_num [BuildingSelector.rotterdamFallbackPos, qualityCexPickedPos] at hh

/-- C6 amended: a geometry resolution that reaches the degenerate default
(width 40, length 40, height 45) only RETURNS that geometry — geometry
extraction never writes the position cache, so the degenerate constants never
overwrite a cached entry; the position cache itself, however, is overwritten
unconditionally by every successful position resolution of a toggle,
whatever its quality, while other buildings' entries stay untouched. -/
theorem position_cache_unconditional_overwrite_amended :
    (∀ stored : Option FloorGenerator.Carto,
      FloorGenerator.extractDetailedGeometry none stored
        = stored.map FloorGenerator.degenerateDefaultGeometry)
    ∧ (∀ (s : FloorGenerator.State) (bid : String) (sp : Option Unit)
        (gp ep : Option FloorGenerator.Carto),
        (BuildingSelector.toggleFloorsPositionUpdate s bid sp gp
            ep).1.buildingPositions
          = match BuildingSelector.getEarthPositionFromScreen sp gp ep
              (some bid) with
            | some (p, _) => JsMap.set s.buildingPositions bid p
            | none => s.buildingPositions)
    ∧ (∀ (s : FloorGenerator.State) (bid : String) (sp : Option Unit)
        (gp ep : Option FloorGenerator.Carto) (b : String), b ≠ bid →
        JsMap.get (BuildingSelector.toggleFloorsPositionUpdate s bid sp gp
            ep).1.buildingPositions b
          = JsMap.get s.buildingPositions b) := by
  have h2 : ∀ (s : FloorGenerator.State) (bid : String) (sp : Option Unit)
      (gp ep : Option FloorGenerator.Carto),
      (BuildingSelector.toggleFloorsPositionUpdate s bid sp gp
          ep).1.buildingPositions
        = match BuildingSelector.getEarthPositionFromScreen sp gp ep
            (some bid) with
          | some (p, _) => JsMap.set s.buildingPositions bid p
          | none => s.buildingPositions := by
    intro s bid sp gp ep
    cases h : BuildingSelector.getEarthPositionFromScreen sp gp ep (some bid) with
    | some pr =>
      obtain ⟨p, src⟩ := pr
      simp [BuildingSelector.toggleFloorsPositionUpdate, h,
        FloorGenerator.setBuildingPosition]
    | none =>
      simp [BuildingSelector.toggleFloorsPositionUpdate, h]
  refine ⟨?_, h2, ?_⟩
  · intro stored
    cases stored <;> rfl
  · intro s bid sp gp ep b hb
    rw [h2]
    cases h : BuildingSelector.getEarthPositionFromScreen sp gp ep (some bid) with
    | some pr =>
      obtain ⟨p, src⟩ := pr
      rw [JsMap.get_set]
      simp [hb]
    | none => rfl

/-- Witness for C6's amended theorem: concrete instances of the degenerate
return, the unconditional overwrite and the untouched-other-entry facts. -/
theorem position_cache_overwrite_amended_witness :
    FloorGenerator.extractDetailedGeometry none (some qualityCexPickedPos)
      = some (FloorGenerator.degenerateDefaultGeometry qualityCexPickedPos)
    ∧ (BuildingSelector.toggleFloorsPositionUpdate FloorGenerator.State.initial
        qualityCexBid (some ()) (some qualityCexPickedPos)
        none).1.buildingPositions
      = JsMap.set FloorGenerator.State.initial.buildingPositions qualityCexBid
          qualityCexPickedPos
    ∧ ("0599100000035588" : String) ≠ qualityCexBid
    ∧ JsMap.get (BuildingSelector.toggleFloorsPositionUpdate
        FloorGenerator.State.initial qualityCexBid (some ())
        (some qualityCexPickedPos) none).1.buildingPositions "0599100000035588"
      = JsMap.get FloorGenerator.State.initial.buildingPositions
          "0599100000035588" :=
  ⟨position_cache_unconditional_overwrite_amended.1 (some qualityCexPickedPos),
   position_cache_unconditional_overwrite_amended.2.1
     FloorGenerator.State.initial qualityCexBid (some ())
     (some qualityCexPickedPos) none,
   by decide,
   position_cache_unconditional_overwrite_amended.2.2
     FloorGenerator.State.initial qualityCexBid (some ())
     (some qualityCexPickedPos) none "0599100000035588" (by decide)⟩

/-- C4: for floorCount ≥ 1 and buildingHeight > 0, the generated floor
entities satisfy the claimed layout — floor height is buildingHeight/n, the
Z center of floor i is `anchor.height − h/2 + (i + 0.5)·floorHeight` with XY
held at the anchor, the box height carries the fixed 0.8 visual margin, and
the floors' zRanges (center ± floorHeight/2) exactly tile
`[anchor.height − h/2, anchor.height + h/2]`: the bottom of floor 0 is the
building bottom, the top of floor n−1 is the building top, and each floor's
top coincides with the next floor's bottom (no gaps, no overlaps). -/
theorem floor_stack_tiles_building_height :
    ∀ (bid : String) (geom : FloorGenerator.BuildingGeometry)
      (props : List PropertyRecord) (n : ℕ),
      1 ≤ n → 0 < geom.height →
      (FloorGenerator.generateFloorEntities bid geom props n).length = n
      ∧ (∀ i, i < n →
          ((FloorGenerator.generateFloorEntities bid geom props n)[i]?.map
              FloorGenerator.FloorEnt.z)
            = some (geom.position.height - geom.height / 2
                + ((i : ℚ) + 1/2) * (geom.height / (n : ℚ)))
          ∧ ((FloorGenerator.generateFloorEntities bid geom props n)[i]?.map
              FloorGenerator.FloorEnt.lon) = some geom.position.lon
          ∧ ((FloorGenerator.generateFloorEntities bid geom props n)[i]?.map
              FloorGenerator.FloorEnt.lat) = some geom.position.lat
          ∧ ((FloorGenerator.generateFloorEntities bid geom props n)[i]?.map
              FloorGenerator.FloorEnt.dimZ)
            = some ((geom.height / (n : ℚ)) * (4/5)))
      ∧ ((FloorGenerator.generateFloorEntities bid geom props n)[0]?.map
          (fun e => e.z - geom.height / (n : ℚ) / 2))
        = some (geom.position.height - geom.height / 2)
      ∧ ((FloorGenerator.generateFloorEntities bid geom props n)[n-1]?.map
          (fun e => e.z + geom.height / (n : ℚ) / 2))
        = some (geom.position.height + geom.height / 2)
      ∧ (∀ i, i + 1 < n →
          ((FloorGenerator.generateFloorEntities bid geom props n)[i]?.map
            (fun e => e.z + geom.height / (n : ℚ) / 2))
          = ((FloorGenerator.generateFloorEntities bid geom props n)[i+1]?.map
            (fun e => e.z - geom.height / (n : ℚ) / 2))) := by
  intro bid geom props n hn hh
  have hn0 : (n : ℚ) ≠ 0 := Nat.cast_ne_zero.mpr (by omega)
  have hElem : ∀ i, i < n →
      (FloorGenerator.generateFloorEntities bid geom props n)[i]?
        = some
          { buildingId := bid
            floorNum := i
            lon := geom.position.lon
            lat := geom.position.lat
            z := (geom.position.height - geom.height / 2)
              + (i : ℚ) * (geom.height / (n : ℚ)) + (geom.height / (n : ℚ)) / 2
            dimX := geom.width * (19/20)
            dimY := geom.length * (19/20)
            dimZ := (geom.height / (n : ℚ)) * (4/5)
            color := FloorGenerator.getFloorColor i n
            records := FloorGenerator.getPropertiesOnFloor props i
            visible := true } := by
    intro i hi
    unfold FloorGenerator.generateFloorEntities
    rw [List.getElem?_map, List.getElem?_range hi]
    rfl
  refine ⟨?_, ?_, ?_, ?_, ?_⟩
  · simp [FloorGenerator.generateFloorEntities]
  · intro i hi
    rw [hElem i hi]
    refine ⟨?_, rfl, rfl, rfl⟩
    simp only [Option.map_some']
    congr 1
    ring
  · rw [hElem 0 (by omega)]
    simp only [Option.map_some']
    congr 1
    push_cast
    ring
  · rw [hElem (n-1) (by omega)]
    simp only [Option.map_some']
    congr 1
    have hcast : ((n - 1 : ℕ) : ℚ) = (n : ℚ) - 1 := by
      push_cast [hn]
      ring
    rw [hcast]
    field_simp
    ring
  · intro i hi
    rw [hElem i (by omega), hElem (i+1) hi]
    simp only [Option.map_some']
    congr 1
    push_cast
    ring

/-- Geometry of the tiling witness: anchor height 100, building height 45. -/
def tilingWitnessGeometry : FloorGenerator.BuildingGeometry :=
  { position := ⟨4, 51, 100⟩, width := 40, length := 40, height := 45,
    isLShaped := false }

/-- Witness for C4 at three floors: the hypotheses hold and the stack of the
concrete building tiles up to its top. -/
theorem floor_stack_tiles_witness :
    (1 : ℕ) ≤ 3
    ∧ (0 : ℚ) < tilingWitnessGeometry.height
    ∧ (FloorGenerator.generateFloorEntities "0599100000668111"
        tilingWitnessGeometry [] 3).length = 3
    ∧ ((FloorGenerator.generateFloorEntities "0599100000668111"
        tilingWitnessGeometry [] 3)[3-1]?.map
        (fun e => e.z + tilingWitnessGeometry.height / (3 : ℚ) / 2))
      = some (tilingWitnessGeometry.position.height
          + tilingWitnessGeometry.height / 2) :=
  ⟨by norm_num,
   by norm_num [tilingWitnessGeometry],
   (floor_stack_tiles_building_height "0599100000668111" tilingWitnessGeometry
      [] 3 (by norm_num) (by norm_num [tilingWitnessGeometry])).1,
   (floor_stack_tiles_building_height "0599100000668111" tilingWitnessGeometry
      [] 3 (by norm_num) (by norm_num [tilingWitnessGeometry])).2.2.2.1⟩
